import Mathlib

/-!
Verification of the task-queuing library (django_core_tasks / django_tasks).

The Python sources embedded here are `backends/immediate.py` and
`backends/dummy.py`; the task-descriptor API (`Task.using`, `validate_task`),
the database-backed store (ready set, claim ordering, `get_result`) and the
worker loop are not part of the available sources, so those definitions are
modelled from the specification and marked as such in their doc comments.

Python values are modelled just finely enough to distinguish exception
instances (and, among those, `Exception` subclasses from bare
`BaseException`s such as `SystemExit`), since `ImmediateBackend` branches on
`isinstance(result, BaseException)` and catches only `Exception`.
-/

namespace DjangoTasks

/-- Lifecycle status of a task result (`TaskStatus` / `ResultStatus`). -/
inductive TaskStatus
  | NEW
  | RUNNING
  | COMPLETE
  | FAILED
deriving DecidableEq, Repr

/-- A Python exception instance: its class name, and whether the class is a
subclass of `Exception` (as opposed to a bare `BaseException` such as
`SystemExit`, which `except Exception` does not catch). -/
structure PyExc where
  excName : String
  isExceptionSubclass : Bool
deriving DecidableEq, Repr

/-- A Python value, distinguished only by whether it is an exception
instance; all other values are opaque. -/
inductive PyValue
  | plain (s : String)
  | exc (e : PyExc)
deriving DecidableEq, Repr

/-- `isinstance(v, BaseException)`. -/
def PyValue.isBaseException : PyValue → Bool
  | .plain _ => false
  | .exc _ => true

/-- Keyword arguments of a Python call. -/
abbrev PyKwargs := List (String × PyValue)

/-- Outcome of calling a Python function: a returned value or a raised
exception. -/
inductive CallOutcome
  | ret (v : PyValue)
  | raised (e : PyExc)
deriving DecidableEq, Repr

/-- A Python callable as the immediate backend sees it: whether
`is_valid_task_function` accepts it, and its behaviour on given arguments.
The `async_to_sync` wrapping of coroutine functions is semantically the
identity here, so it is not modelled separately. -/
structure PyFunc where
  valid : Bool
  call : List PyValue → PyKwargs → CallOutcome

/-- Errors that `ImmediateBackend.enqueue` can raise to its caller:
`InvalidTask` for a rejected function, or an uncaught `BaseException`
(the `try` block catches only `Exception`). -/
inductive ImmediateError
  | invalidTask
  | uncaught (e : PyExc)
deriving DecidableEq, Repr

/-- The record returned by `ImmediateBackend.enqueue` (`ImmutableTask`).
The constructor also stores the function object itself (`func=func`); that
field is omitted here as it is the `PyFunc` argument unchanged. -/
structure ImmutableTask where
  id : String
  status : TaskStatus
  result : PyValue
  queued_at : Int
  completed_at : Int
  priority : Option Int
  args : List PyValue
  kwargs : PyKwargs
  whenField : Option Int
  raw : Option PyValue
deriving DecidableEq, Repr

/-- `ImmediateBackend.enqueue` from `backends/immediate.py`: validate the
function, call it catching `Exception` (a caught exception becomes the
`result` value), then build a record whose status is `FAILED` exactly when
`isinstance(result, BaseException)`, else `COMPLETE`.  The two
`timezone.now()` reads and the fresh UUID are passed in as parameters. -/
def ImmediateBackend.enqueue (func : PyFunc) (priority : Option Int)
    (args : Option (List PyValue)) (kwargs : Option PyKwargs)
    (newId : String) (queuedAt completedAt : Int) :
    Except ImmediateError ImmutableTask :=
  if func.valid = false then
    .error .invalidTask
  else
    let args := args.getD []
    let kwargs := kwargs.getD []
    let attempt : Except PyExc PyValue :=
      match func.call args kwargs with
      | .ret v => .ok v
      | .raised e => if e.isExceptionSubclass then .ok (.exc e) else .error e
    match attempt with
    | .error e => .error (.uncaught e)
    | .ok result =>
        .ok { id := newId
              status := if result.isBaseException then .FAILED else .COMPLETE
              result := result
              queued_at := queuedAt
              completed_at := completedAt
              priority := priority
              args := args
              kwargs := kwargs
              whenField := none
              raw := none }

/-- A concrete `ValueError` instance. -/
def valueErrorExc : PyExc := { excName := "ValueError", isExceptionSubclass := true }

/-- A valid task function that returns normally, with an exception instance
as its return value. -/
def returnsExceptionValue : PyFunc :=
  { valid := true, call := fun _ _ => .ret (.exc valueErrorExc) }

theorem immediate_enqueue_ok_status (func : PyFunc) (priority : Option Int)
    (args : Option (List PyValue)) (kwargs : Option PyKwargs)
    (newId : String) (t0 t1 : Int) (rec : ImmutableTask)
    (h : ImmediateBackend.enqueue func priority args kwargs newId t0 t1 = .ok rec) :
    rec.status = (if rec.result.isBaseException then TaskStatus.FAILED else TaskStatus.COMPLETE) := by
  unfold ImmediateBackend.enqueue at h
  by_cases hv : func.valid = false
  · simp [hv] at h
  · simp only [hv, if_false] at h
    cases hcall : func.call (args.getD []) (kwargs.getD []) with
    | ret v =>
        simp only [hcall] at h
        cases h
        rfl
    | raised e =>
        simp only [hcall] at h
        by_cases he : e.isExceptionSubclass
        · simp only [he, if_true] at h
          cases h
          rfl
        · simp only [he, if_false] at h
          cases h

theorem immediate_enqueue_ok_result (func : PyFunc) (priority : Option Int)
    (args : Option (List PyValue)) (kwargs : Option PyKwargs)
    (newId : String) (t0 t1 : Int) (rec : ImmutableTask)
    (h : ImmediateBackend.enqueue func priority args kwargs newId t0 t1 = .ok rec) :
    ∀ v, func.call (args.getD []) (kwargs.getD []) = .ret v → rec.result = v := by
  intro v hcall
  unfold ImmediateBackend.enqueue at h
  by_cases hv : func.valid = false
  · simp [hv] at h
  · simp only [hv, if_false, hcall] at h
    cases h
    rfl

/-- Claim C1, counterexample: the claim says a normally-returning call always
yields a `COMPLETE` record, but `backends/immediate.py` decides the status by
`isinstance(result, BaseException)`; a valid task function that returns an
exception instance normally produces a `FAILED` record, not `COMPLETE`. -/
theorem C1_immediate_counterexample :
    returnsExceptionValue.call [] [] = .ret (.exc valueErrorExc) ∧
    (ImmediateBackend.enqueue returnsExceptionValue none none none "id-0" 0 0).map
        ImmutableTask.status = .ok .FAILED ∧
    (Except.ok TaskStatus.FAILED : Except ImmediateError TaskStatus) ≠ .ok .COMPLETE :=
  ⟨rfl, rfl, fun h => absurd (Except.ok.inj h) (by decide)⟩

/-- Claim C1, amended: `ImmediateBackend.enqueue` executes the task
synchronously and returns a terminal record; a normal return whose value is
not a `BaseException` instance gives a `COMPLETE` record carrying the value,
a raised `Exception` gives a `FAILED` record carrying the exception without
propagating it, and a normal return of a `BaseException` instance also gives
a `FAILED` record. -/
theorem C1_immediate_terminal_record (func : PyFunc) (priority : Option Int)
    (args : Option (List PyValue)) (kwargs : Option PyKwargs)
    (newId : String) (t0 t1 : Int) (hvalid : func.valid = true) :
    (∀ v, func.call (args.getD []) (kwargs.getD []) = .ret v →
      v.isBaseException = false →
      ImmediateBackend.enqueue func priority args kwargs newId t0 t1 =
        .ok { id := newId, status := .COMPLETE, result := v, queued_at := t0,
              completed_at := t1, priority := priority, args := args.getD [],
              kwargs := kwargs.getD [], whenField := none, raw := none }) ∧
    (∀ e, func.call (args.getD []) (kwargs.getD []) = .raised e →
      e.isExceptionSubclass = true →
      ImmediateBackend.enqueue func priority args kwargs newId t0 t1 =
        .ok { id := newId, status := .FAILED, result := .exc e, queued_at := t0,
              completed_at := t1, priority := priority, args := args.getD [],
              kwargs := kwargs.getD [], whenField := none, raw := none }) ∧
    (∀ v, func.call (args.getD []) (kwargs.getD []) = .ret v →
      v.isBaseException = true →
      ImmediateBackend.enqueue func priority args kwargs newId t0 t1 =
        .ok { id := newId, status := .FAILED, result := v, queued_at := t0,
              completed_at := t1, priority := priority, args := args.getD [],
              kwargs := kwargs.getD [], whenField := none, raw := none }) := by
  refine ⟨?_, ?_, ?_⟩
  · intro v hcall hflag
    simp [ImmediateBackend.enqueue, hvalid, hcall, hflag]
  · intro e hcall hflag
    simp [ImmediateBackend.enqueue, hvalid, hcall, hflag, PyValue.isBaseException]
  · intro v hcall hflag
    simp [ImmediateBackend.enqueue, hvalid, hcall, hflag]

/-- A valid task function that returns the plain value 42. -/
def plainFunc : PyFunc := { valid := true, call := fun _ _ => .ret (.plain "42") }

/-- Witness for the amended claim C1 at a concrete function. -/
theorem C1_immediate_terminal_record_witness :
    ImmediateBackend.enqueue plainFunc none none none "id-1" 0 0 =
      .ok { id := "id-1", status := .COMPLETE, result := .plain "42", queued_at := 0,
            completed_at := 0, priority := none, args := [], kwargs := [],
            whenField := none, raw := none } :=
  (C1_immediate_terminal_record plainFunc none none none "id-1" 0 0 rfl).1
    (.plain "42") rfl rfl

/-- Claim C10: when `ImmediateBackend.enqueue` returns a record, the status is
`COMPLETE` exactly when the result payload is not a `BaseException` instance,
and a call that returns an exception instance normally yields a `FAILED`
record with that instance as payload. -/
theorem C10_complete_iff_not_exception (func : PyFunc) (priority : Option Int)
    (args : Option (List PyValue)) (kwargs : Option PyKwargs)
    (newId : String) (t0 t1 : Int) (rec : ImmutableTask)
    (h : ImmediateBackend.enqueue func priority args kwargs newId t0 t1 = .ok rec) :
    (rec.status = .COMPLETE ↔ rec.result.isBaseException = false) ∧
    (∀ e, func.call (args.getD []) (kwargs.getD []) = .ret (.exc e) →
      rec.status = .FAILED ∧ rec.result = .exc e) := by
  have hst := immediate_enqueue_ok_status func priority args kwargs newId t0 t1 rec h
  constructor
  · cases hb : rec.result.isBaseException <;> simp [hb] at hst <;> simp [hst, hb]
  · intro e hcall
    have hres := immediate_enqueue_ok_result func priority args kwargs newId t0 t1 rec h
      (.exc e) hcall
    refine ⟨?_, hres⟩
    rw [hres] at hst
    simpa [PyValue.isBaseException] using hst

/-- The record the immediate backend produces for `returnsExceptionValue`. -/
def returnedExcRecord : ImmutableTask :=
  { id := "id-2", status := .FAILED, result := .exc valueErrorExc, queued_at := 0,
    completed_at := 0, priority := none, args := [], kwargs := [],
    whenField := none, raw := none }

/-- Witness for claim C10 at a concrete function. -/
theorem C10_complete_iff_not_exception_witness :
    returnedExcRecord.status = .FAILED ∧ returnedExcRecord.result = .exc valueErrorExc :=
  (C10_complete_iff_not_exception returnsExceptionValue none none none "id-2" 0 0
    returnedExcRecord rfl).2 valueErrorExc rfl

/-- A Python `datetime`, either timezone-aware or naive, measured as an
integer instant. -/
inductive PyDatetime
  | aware (t : Int)
  | naive (t : Int)
deriving DecidableEq, Repr

/-- Argument accepted by `using(run_after=...)`: an absolute datetime or a
relative `timedelta` in seconds. -/
inductive RunAfterArg
  | dt (d : PyDatetime)
  | delta (seconds : Int)
deriving DecidableEq, Repr

/-- The task descriptor (`Task` dataclass): name, module-qualified function
path, whether that function is a globally importable plain function, and the
default priority, queue name, scheduled time and backend alias.  The
callable itself carries no behaviour relevant to enqueueing, so it is
represented by its path and importability flag. -/
structure Task where
  name : String
  funcPath : String
  funcImportable : Bool
  priority : Option Int
  queue_name : Option String
  run_after : Option PyDatetime
  backend : String
deriving DecidableEq, Repr

/-- Errors raised by descriptor validation and backend resolution. -/
inductive TaskError
  | invalidTaskError (msg : String)
  | invalidTaskBackendError (msg : String)
deriving DecidableEq, Repr

/-- Modelled from the spec: the `run_after` part of `validate_task` (the
implementation is not among the available sources); a naive datetime is
rejected with `InvalidTaskError`, per the spec and the message asserted by
`test_naive_datetime`. -/
def checkRunAfter (t : Task) : Except TaskError Unit :=
  match t.run_after with
  | some (.naive _) => .error (.invalidTaskError "run_after must be an aware datetime")
  | _ => .ok ()

/-- Modelled from the spec: `BaseTaskBackend.validate_task` (not among the
available sources); rejects a non-importable function, a non-positive
priority, and a naive `run_after`, with the messages asserted by
`test_invalid_function`, `test_invalid_priority` and `test_naive_datetime`. -/
def validate_task (t : Task) : Except TaskError Unit :=
  if t.funcImportable = false then
    .error (.invalidTaskError "Task function must be a globally importable function")
  else
    match t.priority with
    | some p =>
        if p ≤ 0 then .error (.invalidTaskError "priority must be positive")
        else checkRunAfter t
    | none => checkRunAfter t

/-- Fields that may be overridden by `Task.using`; `none` means the field was
not passed. -/
structure TaskOverrides where
  priority : Option Int
  queue_name : Option String
  run_after : Option RunAfterArg
  backend : Option String
deriving DecidableEq, Repr

/-- Modelled from the spec: a relative `run_after` duration is normalized to
an absolute aware datetime (`now + delta`); an absolute datetime is stored
as given (naive ones are only rejected later, at validation time). -/
def normalizeRunAfter (now : Int) : RunAfterArg → PyDatetime
  | .dt d => d
  | .delta s => .aware (now + s)

/-- Modelled from the spec: the field update performed by `Task.using` —
exactly the passed fields are replaced, every other field keeps the
original value. -/
def Task.withOverrides (t : Task) (o : TaskOverrides) (now : Int) : Task :=
  { name := t.name
    funcPath := t.funcPath
    funcImportable := t.funcImportable
    priority := match o.priority with | some p => some p | none => t.priority
    queue_name := match o.queue_name with | some q => some q | none => t.queue_name
    run_after :=
      match o.run_after with
      | some r => some (normalizeRunAfter now r)
      | none => t.run_after
    backend := match o.backend with | some b => b | none => t.backend }

/-- Modelled from the spec: `Task.using` (not among the available sources)
returns a new descriptor with the overrides applied; a backend override is
validated eagerly against the configured backend registry and an unknown
alias raises `InvalidTaskBackendError` at `using()` time. -/
def Task.using (t : Task) (o : TaskOverrides) (backends : List String) (now : Int) :
    Except TaskError Task :=
  match o.backend with
  | some b =>
      if backends.contains b then .ok (t.withOverrides o now)
      else .error (.invalidTaskBackendError ("The connection " ++ b ++ " does not exist."))
  | none => .ok (t.withOverrides o now)

/-- The result record built by `DummyBackend.enqueue` (`TaskResult`); the
fields not passed by `dummy.py` (`finished_at`, the payload) default to
null. -/
structure TaskResult where
  task : Task
  id : String
  status : TaskStatus
  args : List PyValue
  kwargs : PyKwargs
  backend : String
  finished_at : Option Int
  result_value : Option PyValue
deriving DecidableEq, Repr

/-- Modelled from the spec: accessing `result` before a terminal status is an
error, not a blocking wait (message asserted by `test_enqueue_task` in the
database-backend tests). -/
def TaskResult.result (r : TaskResult) : Except String (Option PyValue) :=
  if r.status = .COMPLETE ∨ r.status = .FAILED then .ok r.result_value
  else .error "Task has not finished yet"

/-- The dummy backend state from `backends/dummy.py`: its configured alias
and the list of results appended so far. -/
structure DummyBackend where
  backendAlias : String
  results : List TaskResult
deriving DecidableEq, Repr

/-- A fresh `DummyBackend` (`__init__` sets `results = []`). -/
def DummyBackend.init (a : String) : DummyBackend :=
  { backendAlias := a, results := [] }

/-- `DummyBackend.enqueue` from `backends/dummy.py`: validate the task, build
a `TaskResult` with a fresh id, status `NEW`, the submitted args/kwargs and
the backend alias, append it to `results` and return it.  A validation
error propagates before anything is appended. -/
def DummyBackend.enqueue (b : DummyBackend) (task : Task) (args : List PyValue)
    (kwargs : PyKwargs) (newId : String) :
    Except TaskError (DummyBackend × TaskResult) :=
  match validate_task task with
  | .error e => .error e
  | .ok _ =>
      let result : TaskResult :=
        { task := task, id := newId, status := .NEW, args := args, kwargs := kwargs,
          backend := b.backendAlias, finished_at := none, result_value := none }
      .ok ({ b with results := b.results ++ [result] }, result)

/-- `DummyBackend.clear` from `backends/dummy.py`. -/
def DummyBackend.clear (b : DummyBackend) : DummyBackend :=
  { b with results := [] }

/-- One operation on a dummy backend, for stating its reachability
invariant. -/
inductive DummyOp
  | enqueueOp (task : Task) (args : List PyValue) (kwargs : PyKwargs) (newId : String)
  | clearOp
deriving DecidableEq, Repr

/-- Apply one operation to a dummy backend; an enqueue whose validation
raises leaves the state unchanged (the exception propagates before the
append). -/
def DummyBackend.applyOp (b : DummyBackend) (op : DummyOp) : DummyBackend :=
  match op with
  | .enqueueOp t a k i =>
      match b.enqueue t a k i with
      | .ok (b2, _) => b2
      | .error _ => b
  | .clearOp => b.clear

/-- Run a sequence of operations from a fresh backend with alias `a`. -/
def DummyBackend.runOps (a : String) (ops : List DummyOp) : DummyBackend :=
  List.foldl DummyBackend.applyOp (DummyBackend.init a) ops

/-- The `TaskResult` literal that `DummyBackend.enqueue` constructs. -/
def DummyBackend.newRecord (b : DummyBackend) (task : Task) (args : List PyValue)
    (kwargs : PyKwargs) (newId : String) : TaskResult :=
  { task := task, id := newId, status := .NEW, args := args, kwargs := kwargs,
    backend := b.backendAlias, finished_at := none, result_value := none }

theorem dummy_enqueue_ok (b : DummyBackend) (t : Task) (args : List PyValue)
    (kwargs : PyKwargs) (newId : String) (hv : validate_task t = .ok ()) :
    b.enqueue t args kwargs newId =
      .ok ({ backendAlias := b.backendAlias,
             results := b.results ++ [b.newRecord t args kwargs newId] },
           b.newRecord t args kwargs newId) := by
  unfold DummyBackend.enqueue DummyBackend.newRecord
  rw [hv]

theorem dummy_enqueue_error (b : DummyBackend) (t : Task) (args : List PyValue)
    (kwargs : PyKwargs) (newId : String) (e : TaskError)
    (hv : validate_task t = .error e) :
    b.enqueue t args kwargs newId = .error e := by
  unfold DummyBackend.enqueue
  rw [hv]

/-- The descriptor of `tests.tasks.noop_task`. -/
def noopTask : Task :=
  { name := "noop_task", funcPath := "tests.tasks.noop_task", funcImportable := true,
    priority := none, queue_name := none, run_after := none, backend := "default" }

/-- Claim C2: on a valid descriptor, `DummyBackend.enqueue` appends and
returns a record with status `NEW`, a null `finished_at` and the submitted
args/kwargs, and accessing its `result` raises because the status is not
terminal.  The task is not executed: the record is built from the
descriptor's fields alone, and no callable is ever invoked. -/
theorem C2_enqueue_new_record (b : DummyBackend) (t : Task) (args : List PyValue)
    (kwargs : PyKwargs) (newId : String)
    (hvalid : validate_task t = .ok ()) :
    ∃ b2 r, b.enqueue t args kwargs newId = .ok (b2, r) ∧
      r.status = .NEW ∧ r.finished_at = none ∧
      r.args = args ∧ r.kwargs = kwargs ∧ r.task = t ∧
      b2.results = b.results ++ [r] ∧
      r.result = .error "Task has not finished yet" :=
  ⟨_, _, dummy_enqueue_ok b t args kwargs newId hvalid,
    rfl, rfl, rfl, rfl, rfl, rfl, rfl⟩

/-- Witness for claim C2 on a concrete backend and descriptor. -/
theorem C2_enqueue_new_record_witness :
    ∃ b2 r, (DummyBackend.init "default").enqueue noopTask [] [] "id-3" = .ok (b2, r) ∧
      r.status = .NEW ∧ r.finished_at = none ∧
      r.args = [] ∧ r.kwargs = [] ∧ r.task = noopTask ∧
      b2.results = (DummyBackend.init "default").results ++ [r] ∧
      r.result = .error "Task has not finished yet" :=
  C2_enqueue_new_record (DummyBackend.init "default") noopTask [] [] "id-3" rfl

/-- Claim C3: validation failures are raised synchronously and before any
record is persisted — an invalid function raises `InvalidTask` from the
immediate backend, a naive `run_after` and a non-positive priority raise
`InvalidTaskError` from `validate_task` before the append, a failed enqueue
leaves the backend state untouched, and an unknown backend alias raises
`InvalidTaskBackendError` at `using()` time. -/
theorem C3_validation_synchronous :
    (∀ (func : PyFunc) (priority : Option Int) (args : Option (List PyValue))
        (kwargs : Option PyKwargs) (newId : String) (t0 t1 : Int),
      func.valid = false →
      ImmediateBackend.enqueue func priority args kwargs newId t0 t1 =
        .error .invalidTask) ∧
    (∀ (b : DummyBackend) (t : Task) (args : List PyValue) (kwargs : PyKwargs)
        (newId : String) (d : Int),
      t.funcImportable = true → (∀ p, t.priority = some p → 0 < p) →
      t.run_after = some (.naive d) →
      b.enqueue t args kwargs newId =
        .error (.invalidTaskError "run_after must be an aware datetime")) ∧
    (∀ (b : DummyBackend) (t : Task) (args : List PyValue) (kwargs : PyKwargs)
        (newId : String) (p : Int),
      t.funcImportable = true → t.priority = some p → p ≤ 0 →
      b.enqueue t args kwargs newId =
        .error (.invalidTaskError "priority must be positive")) ∧
    (∀ (b : DummyBackend) (t : Task) (args : List PyValue) (kwargs : PyKwargs)
        (newId : String) (e : TaskError),
      b.enqueue t args kwargs newId = .error e →
      b.applyOp (.enqueueOp t args kwargs newId) = b) ∧
    (∀ (t : Task) (o : TaskOverrides) (backends : List String) (now : Int)
        (name2 : String),
      o.backend = some name2 → backends.contains name2 = false →
      Task.using t o backends now =
        .error (.invalidTaskBackendError
          ("The connection " ++ name2 ++ " does not exist."))) := by
  refine ⟨?_, ?_, ?_, ?_, ?_⟩
  · intro func priority args kwargs newId t0 t1 hv
    unfold ImmediateBackend.enqueue
    rw [hv]
    simp
  · intro b t args kwargs newId d hfn hp hra
    apply dummy_enqueue_error
    unfold validate_task checkRunAfter
    rw [hfn, hra]
    cases hpr : t.priority with
    | none => simp
    | some p =>
        have h0 : 0 < p := hp p hpr
        have hnp : ¬ p ≤ 0 := by omega
        simp [hnp]
  · intro b t args kwargs newId p hfn hpr hple
    apply dummy_enqueue_error
    unfold validate_task
    rw [hfn, hpr]
    simp [hple]
  · intro b t args kwargs newId e he
    simp [DummyBackend.applyOp, he]
  · intro t o backends now name2 hb hc
    unfold Task.using
    rw [hb]
    have hnm : name2 ∉ backends := by simpa using hc
    simp [hnm]

/-- The descriptor `noop_task.using(priority=0)`. -/
def zeroPriorityTask : Task := { noopTask with priority := some 0 }

/-- Witness for claim C3: enqueueing with priority 0 on a fresh dummy backend
raises before persistence. -/
theorem C3_validation_synchronous_witness :
    (DummyBackend.init "default").enqueue zeroPriorityTask [] [] "id-4" =
      .error (.invalidTaskError "priority must be positive") :=
  C3_validation_synchronous.2.2.1 (DummyBackend.init "default") zeroPriorityTask
    [] [] "id-4" 0 rfl rfl (by decide)

/-- Claim C8: `Task.using` returns a new descriptor in which exactly the
passed fields are overridden and every other field keeps the original's
value (the original, being a pure value here, is untouched — matching the
immutability of the Python dataclass); `using()` with no overrides returns a
descriptor equal to the original. -/
theorem C8_using_overrides (t : Task) (o : TaskOverrides) (backends : List String)
    (now : Int)
    (hb : ∀ b, o.backend = some b → backends.contains b = true) :
    Task.using t o backends now = .ok (t.withOverrides o now) ∧
    (t.withOverrides o now).name = t.name ∧
    (t.withOverrides o now).funcPath = t.funcPath ∧
    (t.withOverrides o now).funcImportable = t.funcImportable ∧
    (o.priority = none → (t.withOverrides o now).priority = t.priority) ∧
    (∀ p, o.priority = some p → (t.withOverrides o now).priority = some p) ∧
    (o.queue_name = none → (t.withOverrides o now).queue_name = t.queue_name) ∧
    (∀ q, o.queue_name = some q → (t.withOverrides o now).queue_name = some q) ∧
    (o.run_after = none → (t.withOverrides o now).run_after = t.run_after) ∧
    (∀ r, o.run_after = some r →
      (t.withOverrides o now).run_after = some (normalizeRunAfter now r)) ∧
    (o.backend = none → (t.withOverrides o now).backend = t.backend) ∧
    (∀ b2, o.backend = some b2 → (t.withOverrides o now).backend = b2) ∧
    Task.using t ⟨none, none, none, none⟩ backends now = .ok t := by
  refine ⟨?_, rfl, rfl, rfl, ?_, ?_, ?_, ?_, ?_, ?_, ?_, ?_, rfl⟩
  · unfold Task.using
    cases hob : o.backend with
    | none => rfl
    | some b2 =>
        have hm : b2 ∈ backends := by simpa using hb b2 hob
        simp [hm]
  · intro h; simp [Task.withOverrides, h]
  · intro p h; simp [Task.withOverrides, h]
  · intro h; simp [Task.withOverrides, h]
  · intro q h; simp [Task.withOverrides, h]
  · intro h; simp [Task.withOverrides, h]
  · intro r h; simp [Task.withOverrides, h]
  · intro h; simp [Task.withOverrides, h]
  · intro b2 h; simp [Task.withOverrides, h]

/-- The override set `priority=1`. -/
def priorityOverride : TaskOverrides :=
  { priority := some 1, queue_name := none, run_after := none, backend := none }

/-- Witness for claim C8 at a concrete descriptor and override. -/
theorem C8_using_overrides_witness :
    Task.using noopTask priorityOverride ["default"] 0 =
      .ok (noopTask.withOverrides priorityOverride 0) :=
  (C8_using_overrides noopTask priorityOverride ["default"] 0
    (fun _ h => nomatch h)).1

/-- Invariant of the dummy backend: the alias is the configured one and every
stored record has status `NEW` and that alias as its backend. -/
def DummyBackend.Inv (a : String) (b : DummyBackend) : Prop :=
  b.backendAlias = a ∧ ∀ r ∈ b.results, r.status = TaskStatus.NEW ∧ r.backend = a

theorem dummy_applyOp_inv (a : String) (b : DummyBackend) (op : DummyOp)
    (h : DummyBackend.Inv a b) : DummyBackend.Inv a (b.applyOp op) := by
  obtain ⟨ha, hr⟩ := h
  cases op with
  | clearOp =>
      exact ⟨ha, by simp [DummyBackend.applyOp, DummyBackend.clear]⟩
  | enqueueOp t args kwargs i =>
      cases hv : validate_task t with
      | error e =>
          simp [DummyBackend.applyOp, dummy_enqueue_error b t args kwargs i e hv]
          exact ⟨ha, hr⟩
      | ok u =>
          cases u
          simp only [DummyBackend.applyOp, dummy_enqueue_ok b t args kwargs i hv]
          refine ⟨ha, ?_⟩
          intro r hrmem
          rcases List.mem_append.mp hrmem with hmem | hmem
          · exact hr r hmem
          · rw [List.mem_singleton.mp hmem]
            exact ⟨rfl, ha⟩

theorem dummy_foldl_inv (a : String) (ops : List DummyOp) :
    ∀ b : DummyBackend, DummyBackend.Inv a b →
      DummyBackend.Inv a (List.foldl DummyBackend.applyOp b ops) := by
  induction ops with
  | nil => intro b h; exact h
  | cons op rest ih =>
      intro b h
      exact ih (b.applyOp op) (dummy_applyOp_inv a b op h)

/-- Claim C9: from a fresh dummy backend, every reachable state stores only
records with status `NEW` and the configured alias; a successful enqueue
appends exactly one record (leaving the previous ones unchanged) and returns
it; `clear` empties the list; a failing enqueue changes nothing. -/
theorem C9_dummy_invariant :
    (∀ (a : String) (ops : List DummyOp),
      (DummyBackend.runOps a ops).backendAlias = a ∧
      ∀ r ∈ (DummyBackend.runOps a ops).results,
        r.status = TaskStatus.NEW ∧ r.backend = a) ∧
    (∀ (b b2 : DummyBackend) (t : Task) (args : List PyValue) (kwargs : PyKwargs)
        (newId : String) (r : TaskResult),
      b.enqueue t args kwargs newId = .ok (b2, r) →
      b2.results = b.results ++ [r] ∧ b2.backendAlias = b.backendAlias ∧
      r.status = .NEW ∧ r.backend = b.backendAlias) ∧
    (∀ b : DummyBackend, b.clear.results = []) ∧
    (∀ (b : DummyBackend) (t : Task) (args : List PyValue) (kwargs : PyKwargs)
        (newId : String) (e : TaskError),
      b.enqueue t args kwargs newId = .error e →
      b.applyOp (.enqueueOp t args kwargs newId) = b) := by
  refine ⟨?_, ?_, fun _ => rfl, ?_⟩
  · intro a ops
    exact dummy_foldl_inv a ops (DummyBackend.init a) ⟨rfl, by simp [DummyBackend.init]⟩
  · intro b b2 t args kwargs newId r h
    cases hv : validate_task t with
    | error e => rw [dummy_enqueue_error b t args kwargs newId e hv] at h; cases h
    | ok u =>
        cases u
        rw [dummy_enqueue_ok b t args kwargs newId hv] at h
        cases h
        exact ⟨rfl, rfl, rfl, rfl⟩
  · intro b t args kwargs newId e he
    simp [DummyBackend.applyOp, he]

/-- The record appended by the witness enqueue for claim C9. -/
def noopRecord : TaskResult :=
  { task := noopTask, id := "id-5", status := .NEW, args := [], kwargs := [],
    backend := "default", finished_at := none, result_value := none }

/-- The dummy backend state after the witness enqueue for claim C9. -/
def dummyAfterEnqueue : DummyBackend :=
  { backendAlias := "default", results := [noopRecord] }

/-- Witness for claim C9 on a concrete enqueue. -/
theorem C9_dummy_invariant_witness :
    dummyAfterEnqueue.results = (DummyBackend.init "default").results ++ [noopRecord] ∧
    dummyAfterEnqueue.backendAlias = (DummyBackend.init "default").backendAlias ∧
    noopRecord.status = .NEW ∧
    noopRecord.backend = (DummyBackend.init "default").backendAlias :=
  C9_dummy_invariant.2.1 (DummyBackend.init "default") dummyAfterEnqueue noopTask
    [] [] "id-5" noopRecord rfl

/-- The stored row of the database backend (`DBTaskResult`); fields per the
spec's schema: key, owning task path, backend alias, queue name, nullable
priority, status, enqueue and schedule timestamps, payloads. -/
structure DBTaskResult where
  id : String
  task_path : String
  backend_name : String
  queue_name : String
  priority : Option Int
  status : TaskStatus
  enqueued_at : Int
  run_after : Option Int
  finished_at : Option Int
  args : List PyValue
  kwargs : PyKwargs
  result_payload : Option PyValue
deriving DecidableEq, Repr

/-- Modelled from the spec: the ready predicate of the durable store
(`DBTaskResult.objects.ready`, not among the available sources) — a row is
ready iff its status is `NEW` and `run_after` is null or not after now. -/
def DBTaskResult.isReady (now : Int) (r : DBTaskResult) : Bool :=
  if r.status = TaskStatus.NEW then
    match r.run_after with
    | none => true
    | some t => decide (t ≤ now)
  else false

/-- Modelled from the spec: an unset priority sorts lowest, as if 0, below
all explicit (validated-positive) priorities. -/
def effectivePriority : Option Int → Int
  | none => 0
  | some p => p

/-- Modelled from the spec: the claim ordering — descending priority, ties
broken by ascending enqueue time (the order observed by
`test_run_after_priority`). -/
def claimLE (a b : DBTaskResult) : Bool :=
  decide (effectivePriority b.priority < effectivePriority a.priority) ||
    (decide (effectivePriority a.priority = effectivePriority b.priority) &&
      decide (a.enqueued_at ≤ b.enqueued_at))

/-- The claim ordering as a relation, for sorting. -/
def ClaimOrder (a b : DBTaskResult) : Prop := claimLE a b = true

instance : DecidableRel ClaimOrder :=
  fun a b => inferInstanceAs (Decidable (claimLE a b = true))

theorem claimLE_iff (a b : DBTaskResult) :
    claimLE a b = true ↔
      (effectivePriority b.priority < effectivePriority a.priority ∨
        (effectivePriority a.priority = effectivePriority b.priority ∧
          a.enqueued_at ≤ b.enqueued_at)) := by
  simp [claimLE, Bool.or_eq_true, Bool.and_eq_true, decide_eq_true_eq]

theorem claimLE_total (a b : DBTaskResult) :
    claimLE a b = true ∨ claimLE b a = true := by
  rw [claimLE_iff, claimLE_iff]
  omega

theorem claimLE_trans (a b c : DBTaskResult) (h1 : claimLE a b = true)
    (h2 : claimLE b c = true) : claimLE a c = true := by
  rw [claimLE_iff] at h1 h2 ⊢
  omega

instance : IsTotal DBTaskResult ClaimOrder := ⟨claimLE_total⟩

instance : IsTrans DBTaskResult ClaimOrder := ⟨claimLE_trans⟩

/-- Modelled from the spec: the ready set in claim order — the `NEW`, due
rows, sorted by descending priority then ascending enqueue time. -/
def readyQueue (db : List DBTaskResult) (now : Int) : List DBTaskResult :=
  List.insertionSort ClaimOrder (db.filter (DBTaskResult.isReady now))

theorem mem_readyQueue_iff (db : List DBTaskResult) (now : Int) (r : DBTaskResult) :
    r ∈ readyQueue db now ↔ r ∈ db ∧ DBTaskResult.isReady now r = true := by
  unfold readyQueue
  rw [(List.perm_insertionSort ClaimOrder _).mem_iff, List.mem_filter]

theorem isReady_iff (now : Int) (r : DBTaskResult) :
    DBTaskResult.isReady now r = true ↔
      (r.status = TaskStatus.NEW ∧
        (r.run_after = none ∨ ∃ t, r.run_after = some t ∧ t ≤ now)) := by
  unfold DBTaskResult.isReady
  by_cases hs : r.status = TaskStatus.NEW
  · cases hra : r.run_after with
    | none => simp [hs, hra]
    | some t => simp [hs, hra]
  · simp [hs]

/-- A `NEW` row with the given id, priority, enqueue time, schedule, queue
and backend. -/
def mkRow (pid : String) (prio : Option Int) (enq : Int) (ra : Option Int)
    (qn bn : String) : DBTaskResult :=
  { id := pid, task_path := "tests.tasks.noop_task", backend_name := bn,
    queue_name := qn, priority := prio, status := .NEW, enqueued_at := enq,
    run_after := ra, finished_at := none, args := [], kwargs := [],
    result_payload := none }

/-- Scenario of `test_run_after_priority`: enqueued with no priority and
`run_after = now + 10h` (now = 100, one hour = 10). -/
def scenarioFarFuture : DBTaskResult := mkRow "t1" none 1 (some 200) "default" "default"

/-- Scenario row: priority 10, `run_after = now + 10h`. -/
def scenarioHighPriorityFarFuture : DBTaskResult :=
  mkRow "t2" (some 10) 2 (some 200) "default" "default"

/-- Scenario row: no priority, `run_after = now + 2h`. -/
def scenarioFuture : DBTaskResult := mkRow "t3" none 3 (some 120) "default" "default"

/-- Scenario row: priority 10, no `run_after`. -/
def scenarioHighPriority : DBTaskResult := mkRow "t4" (some 10) 4 none "default" "default"

/-- Scenario row: priority 2, no `run_after`. -/
def scenarioLowPriority : DBTaskResult := mkRow "t5" (some 2) 5 none "default" "default"

/-- The five scenario rows of `test_run_after_priority`, in enqueue order. -/
def scenarioDb : List DBTaskResult :=
  [scenarioFarFuture, scenarioHighPriorityFarFuture, scenarioFuture,
   scenarioHighPriority, scenarioLowPriority]

/-- Claim C4: the ready set contains exactly the `NEW` rows whose
`run_after` is null or not after now, in descending-priority order with
unset priority below all positive ones and ties broken by enqueue time; on
the concrete scenario of the test, exactly the two due rows remain, ordered
[priority 10, priority 2]. -/
theorem C4_ready_set_and_order :
    (∀ (db : List DBTaskResult) (now : Int) (r : DBTaskResult),
      (r ∈ readyQueue db now ↔
        r ∈ db ∧ r.status = TaskStatus.NEW ∧
          (r.run_after = none ∨ ∃ t, r.run_after = some t ∧ t ≤ now)) ∧
      (readyQueue db now).Sorted ClaimOrder) ∧
    (∀ (a b : DBTaskResult) (p : Int), a.priority = none → b.priority = some p →
      0 < p → claimLE b a = true ∧ claimLE a b = false) ∧
    readyQueue scenarioDb 100 = [scenarioHighPriority, scenarioLowPriority] := by
  refine ⟨?_, ?_, by decide⟩
  · intro db now r
    constructor
    · rw [mem_readyQueue_iff, isReady_iff]
    · exact List.sorted_insertionSort ClaimOrder _
  · intro a b p ha hb hp
    constructor
    · rw [claimLE_iff]
      simp only [ha, hb, effectivePriority]
      omega
    · have hn : ¬ (claimLE a b = true) := by
        rw [claimLE_iff]
        simp only [ha, hb, effectivePriority]
        omega
      simpa using hn

/-- Witness for claim C4: a positive-priority row sorts strictly before an
unset-priority row. -/
theorem C4_ready_set_and_order_witness :
    claimLE scenarioHighPriority scenarioFarFuture = true ∧
    claimLE scenarioFarFuture scenarioHighPriority = false :=
  C4_ready_set_and_order.2.1 scenarioFarFuture scenarioHighPriority 10 rfl rfl
    (by decide)

/-- Modelled from the spec: the execution environment seen by the worker —
which task paths resolve to a registered task, and what calling a resolved
path does. -/
structure ExecEnv where
  resolvable : String → Bool
  run : String → List PyValue → PyKwargs → CallOutcome

/-- The error recorded when a task path does not resolve. -/
def resolutionError : PyExc :=
  { excName := "ResolutionError", isExceptionSubclass := true }

/-- Modelled from the spec: finalize one claimed row — a resolution failure
or any raised exception (including an attempted exit) marks the row
`FAILED` with the error as payload; a normal return marks it `COMPLETE`. -/
def executeRow (env : ExecEnv) (now : Int) (r : DBTaskResult) : DBTaskResult :=
  if env.resolvable r.task_path = false then
    { r with status := .FAILED, finished_at := some now,
             result_payload := some (.exc resolutionError) }
  else
    match env.run r.task_path r.args r.kwargs with
    | .ret v =>
        { r with status := .COMPLETE, finished_at := some now,
                 result_payload := some v }
    | .raised e =>
        { r with status := .FAILED, finished_at := some now,
                 result_payload := some (.exc e) }

/-- Modelled from the spec: the worker's row filter — queue name "*" matches
every queue, otherwise the exact configured name; backend by exact alias. -/
def matchesWorker (queueName backendName : String) (r : DBTaskResult) : Bool :=
  (decide (queueName = "*") || decide (r.queue_name = queueName)) &&
    decide (r.backend_name = backendName)

/-- Modelled from the spec: one batch worker pass — every matching ready row
is executed to a terminal status, every other row is left untouched. -/
def workerPass (env : ExecEnv) (queueName backendName : String) (now : Int)
    (db : List DBTaskResult) : List DBTaskResult :=
  db.map (fun r =>
    if matchesWorker queueName backendName r && DBTaskResult.isReady now r then
      executeRow env now r
    else r)

/-- Claim C5: in a batch pass, every matching ready row — each one, even when
others raise — is driven to a terminal status; a row whose call raises (or
whose path does not resolve) is marked `FAILED`; the pass is a total
function, so no exception escapes the worker. -/
theorem C5_failure_containment (env : ExecEnv) (q bk : String) (now : Int)
    (db : List DBTaskResult) (r : DBTaskResult) (hmem : r ∈ db)
    (hmatch : matchesWorker q bk r = true)
    (hready : DBTaskResult.isReady now r = true) :
    executeRow env now r ∈ workerPass env q bk now db ∧
    ((executeRow env now r).status = .COMPLETE ∨
      (executeRow env now r).status = .FAILED) ∧
    (∀ e, env.run r.task_path r.args r.kwargs = .raised e →
      (executeRow env now r).status = .FAILED) ∧
    (env.resolvable r.task_path = false →
      (executeRow env now r).status = .FAILED) ∧
    (executeRow env now r).id = r.id := by
  refine ⟨?_, ?_, ?_, ?_, ?_⟩
  · have hmap := List.mem_map_of_mem
      (fun x => if matchesWorker q bk x && DBTaskResult.isReady now x then
        executeRow env now x else x) hmem
    unfold workerPass
    simpa [hmatch, hready] using hmap
  · unfold executeRow
    by_cases hres : env.resolvable r.task_path = false
    · simp [hres]
    · rw [if_neg hres]
      cases env.run r.task_path r.args r.kwargs <;> simp
  · intro e he
    unfold executeRow
    by_cases hres : env.resolvable r.task_path = false
    · simp [hres]
    · rw [if_neg hres, he]
  · intro hres
    unfold executeRow
    simp [hres]
  · unfold executeRow
    by_cases hres : env.resolvable r.task_path = false
    · simp [hres]
    · rw [if_neg hres]
      cases env.run r.task_path r.args r.kwargs <;> rfl

/-- An environment in which every path resolves and every call raises a
`ValueError`. -/
def failingEnv : ExecEnv :=
  { resolvable := fun _ => true, run := fun _ _ _ => .raised valueErrorExc }

/-- A ready row on the default queue and backend. -/
def failingRow : DBTaskResult := mkRow "t6" none 1 none "default" "default"

/-- Witness for claim C5 on a concrete failing task. -/
theorem C5_failure_containment_witness :
    executeRow failingEnv 0 failingRow ∈
      workerPass failingEnv "default" "default" 0 [failingRow] ∧
    ((executeRow failingEnv 0 failingRow).status = .COMPLETE ∨
      (executeRow failingEnv 0 failingRow).status = .FAILED) ∧
    (∀ e, failingEnv.run failingRow.task_path failingRow.args failingRow.kwargs =
        .raised e → (executeRow failingEnv 0 failingRow).status = .FAILED) ∧
    (failingEnv.resolvable failingRow.task_path = false →
      (executeRow failingEnv 0 failingRow).status = .FAILED) ∧
    (executeRow failingEnv 0 failingRow).id = failingRow.id :=
  C5_failure_containment failingEnv "default" "default" 0 [failingRow] failingRow
    (List.mem_singleton.mpr rfl) (by decide) (by decide)

/-- Claim C6: a worker pass never mutates a row whose queue name differs
from the configured one (unless configured "*") or whose backend alias
differs — the row survives at its position unchanged, and if it was ready it
is still in the ready set afterwards. -/
theorem C6_queue_backend_isolation (env : ExecEnv) (q bk : String) (now : Int)
    (db : List DBTaskResult) (i : Nat) (r : DBTaskResult)
    (hr : db[i]? = some r) (hno : matchesWorker q bk r = false) :
    (workerPass env q bk now db)[i]? = some r ∧
    (DBTaskResult.isReady now r = true →
      r ∈ readyQueue (workerPass env q bk now db) now) := by
  have hmain : (workerPass env q bk now db)[i]? = some r := by
    unfold workerPass
    rw [List.getElem?_map, hr]
    simp [hno]
  refine ⟨hmain, ?_⟩
  intro hready
  rw [mem_readyQueue_iff]
  exact ⟨List.getElem?_mem hmain, hready⟩

/-- A ready row on queue "queue-1". -/
def queue1Row : DBTaskResult := mkRow "t7" none 1 none "queue-1" "default"

/-- Witness for claim C6: a worker on the default queue leaves a "queue-1"
row untouched and ready. -/
theorem C6_queue_backend_isolation_witness :
    (workerPass failingEnv "default" "default" 0 [queue1Row])[0]? = some queue1Row ∧
    (DBTaskResult.isReady 0 queue1Row = true →
      queue1Row ∈ readyQueue (workerPass failingEnv "default" "default" 0 [queue1Row]) 0) :=
  C6_queue_backend_isolation failingEnv "default" "default" 0 [queue1Row] 0 queue1Row
    rfl (by decide)

/-- The failure raised by a result lookup. -/
inductive LookupError
  | resultDoesNotExist
deriving DecidableEq, Repr

/-- Modelled from the spec: `get_result` (not among the available sources) —
a malformed key, an absent identifier, or a record owned by a different task
path than the descriptor used for the lookup all raise `ResultDoesNotExist`;
otherwise the current persisted row is returned.  `aget_result` is specified
to behave identically, so this definition covers both. -/
def get_result (validKey : String → Bool) (db : List DBTaskResult)
    (taskPath : String) (rid : String) : Except LookupError DBTaskResult :=
  if validKey rid = false then .error .resultDoesNotExist
  else
    match db.find? (fun r => decide (r.id = rid)) with
    | none => .error .resultDoesNotExist
    | some r =>
        if r.task_path = taskPath then .ok r else .error .resultDoesNotExist

theorem get_result_found (validKey : String → Bool) (db : List DBTaskResult)
    (taskPath : String) (rid : String) (r0 : DBTaskResult)
    (hk : ¬ validKey rid = false)
    (hf : db.find? (fun x => decide (x.id = rid)) = some r0) :
    get_result validKey db taskPath rid =
      if r0.task_path = taskPath then .ok r0
      else .error .resultDoesNotExist := by
  unfold get_result
  rw [if_neg hk, hf]

/-- Claim C7: `get_result` raises `ResultDoesNotExist` exactly when the key
is malformed, no stored row carries it, or the row found belongs to a
different task path; on success it returns a stored row with that id and the
descriptor's task path. -/
theorem C7_get_result_lookup (validKey : String → Bool) (db : List DBTaskResult)
    (taskPath : String) (rid : String) :
    (get_result validKey db taskPath rid = .error .resultDoesNotExist ↔
      (validKey rid = false ∨ (∀ r ∈ db, r.id ≠ rid) ∨
        ∃ r, db.find? (fun x => decide (x.id = rid)) = some r ∧
          r.task_path ≠ taskPath)) ∧
    (∀ r, get_result validKey db taskPath rid = .ok r →
      r ∈ db ∧ r.id = rid ∧ r.task_path = taskPath) := by
  by_cases hk : validKey rid = false
  · constructor
    · exact iff_of_true (by unfold get_result; rw [if_pos hk]) (Or.inl hk)
    · intro r hok
      unfold get_result at hok
      rw [if_pos hk] at hok
      cases hok
  · cases hf : db.find? (fun x => decide (x.id = rid)) with
    | none =>
        have hnone : ∀ r ∈ db, r.id ≠ rid := by
          intro r hrm
          have := List.find?_eq_none.mp hf r hrm
          simpa using this
        constructor
        · refine iff_of_true ?_ (Or.inr (Or.inl hnone))
          unfold get_result
          rw [if_neg hk, hf]
        · intro r hok
          unfold get_result at hok
          rw [if_neg hk, hf] at hok
          cases hok
    | some r0 =>
        have hr0id : r0.id = rid := by
          have := List.find?_some hf
          simpa using this
        have hr0mem : r0 ∈ db := List.mem_of_find?_eq_some hf
        have heq := get_result_found validKey db taskPath rid r0 hk hf
        by_cases hp : r0.task_path = taskPath
        · constructor
          · refine iff_of_false ?_ ?_
            · rw [heq, if_pos hp]
              simp
            · rintro (h1 | h2 | ⟨x, hx, hxp⟩)
              · exact hk h1
              · exact h2 r0 hr0mem hr0id
              · cases Option.some.inj hx
                exact hxp hp
          · intro r hok
            rw [heq, if_pos hp] at hok
            cases hok
            exact ⟨hr0mem, hr0id, hp⟩
        · constructor
          · refine iff_of_true ?_ (Or.inr (Or.inr ⟨r0, rfl, hp⟩))
            rw [heq, if_neg hp]
          · intro r hok
            rw [heq, if_neg hp] at hok
            cases hok

/-- A key filter that accepts every identifier. -/
def allKeysValid : String → Bool := fun _ => true

/-- Witness for claim C7: a successful lookup returns the stored row. -/
theorem C7_get_result_lookup_witness :
    failingRow ∈ [failingRow] ∧ failingRow.id = "t6" ∧
      failingRow.task_path = "tests.tasks.noop_task" :=
  (C7_get_result_lookup allKeysValid [failingRow] "tests.tasks.noop_task" "t6").2
    failingRow rfl

end DjangoTasks
